import Mathlib

/-!
Verification development for the SISR (Simple Image Sequence Renderer)
repository.  The repository contains two near-duplicate implementations of
its render operation `create_video_with_overlay`:

* `sisr/core.py` — pattern-input version (numbered `%0Nd` input pattern,
  per-frame conditional drawtext chain, crop-by-offset geometry, `atexit`
  cleanup).  This is the version imported by `sisr/__main__.py` and
  `sisr/gui.py`.
* `sisr/__init__.py` — concat-list version (scale-then-crop geometry,
  metadata drawtext, `try/finally` cleanup).  The module-level definition
  shadows the re-export from `core`.

Both are embedded below.  Modelling conventions:

* Python machine floats only occur as `int(a / b)` or `a // b` on values
  whose exact quotient is a rational with small denominator; these are
  modelled as exact floor division `Int.fdiv` (for the integer ranges the
  program handles, double rounding cannot cross an integer boundary, so
  the embedding is exact).
* `tempfile.mkdtemp` and `get_system_font` are environment inputs
  (`CoreEnv.tempDir`, `CoreEnv.fontPath`): each render call gets the fresh
  directory the OS hands it.
* Filesystem and process side effects are recorded as an explicit trace
  (`Eff`); the encoder's exit status is the environment flag
  `CoreEnv.encoderOk`.  File contents are not modelled (no claim depends
  on them), only which paths are created and removed.
* `str.split`, `os.path.dirname/basename/splitext/join` and `str.lower`
  are re-implemented character-exactly for the path shapes the program
  produces (`pySplit`, `pyDirname`, `pyBasename`, `pySplitextStem`,
  `pySplitextExt`, `pyJoin`, `pyLower`).
-/

/-! ### Python string and path primitives -/

/-- Python `s.split(sep)` on the character list of `s`: splits at every
occurrence of `sep`, keeping empty pieces, and always returns at least one
piece. -/
def pySplitChar (sep : Char) : List Char → List (List Char)
  | [] => [[]]
  | c :: rest =>
    match pySplitChar sep rest with
    | [] => [[]]
    | g :: gs => if c = sep then [] :: g :: gs else (c :: g) :: gs

/-- Python `s.split(sep)` for single-character separators. -/
def pySplit (sep : Char) (s : String) : List String :=
  (pySplitChar sep s.toList).map String.mk

/-- Python `sep.join(parts)`. -/
def pyJoinList (sep : String) : List String → String
  | [] => ""
  | [s] => s
  | s :: rest => s ++ sep ++ pyJoinList sep rest

/-- Python `os.path.dirname` for forward-slash paths without a trailing
slash (the only shape the program produces): everything before the last
slash, or the empty string when there is none. -/
def pyDirname (p : String) : String :=
  let parts := pySplit '/' p
  if parts.length ≤ 1 then "" else pyJoinList "/" parts.dropLast

/-- Python `os.path.basename`: the component after the last slash. -/
def pyBasename (p : String) : String :=
  (pySplit '/' p).getLastD ""

/-- Python `os.path.join(d, f)` for the shapes the program produces:
`f` when `d` is empty, else `d ++ "/" ++ f`. -/
def pyJoin (d f : String) : String :=
  if d = "" then f else d ++ "/" ++ f

/-- Stem of Python `os.path.splitext`: everything before the last dot
(entire string when there is no dot). -/
def pySplitextStem (s : String) : String :=
  let parts := pySplit '.' s
  if parts.length ≤ 1 then s else pyJoinList "." parts.dropLast

/-- Extension of Python `os.path.splitext`: the last dot and what follows
it, or empty when there is no dot. -/
def pySplitextExt (s : String) : String :=
  let parts := pySplit '.' s
  if parts.length ≤ 1 then "" else "." ++ parts.getLastD ""

/-- Python `str.lower` restricted to the ASCII strings the program
compares. -/
def pyLower (s : String) : String :=
  String.mk (s.toList.map Char.toLower)

/-- Python `s.startswith(pre)`. -/
def pyStartsWith (s pre : String) : Bool :=
  pre.toList.isPrefixOf s.toList

/-- Python `f"{i:0{k}d}"` for a natural number: decimal digits left-padded
with zeros to width `k`. -/
def padZeros (k : Nat) (s : String) : String :=
  String.mk (List.replicate (k - s.length) '0') ++ s

/-! ### Geometry resolver of `core.create_video_with_overlay`
(src/sisr/core.py lines 430-490).  The function mutates `width`, `height`,
`x`, `y`; the result record carries their final values, which feed the
`crop=w:h:x:y` filter. -/

/-- Final values of `width`, `height`, `x`, `y` after the crop section of
`core.create_video_with_overlay`. -/
structure Geom where
  w : Int
  h : Int
  x : Int
  y : Int
  deriving Repr, DecidableEq

/-- Crop geometry of src/sisr/core.py lines 430-490.  Aspect comparisons
`width / height > tw / th` are cross-multiplied; `int(...)` of the float
quotients is floor division (exact for this program's ranges).  Note the
`uhd_` branch compares against the string "hd_keep_bottom" (source lines
475 and 486), which can never equal a `uhd_`-prefixed `crop_type`. -/
def coreGeometry (cropType : Option String) (w h : Int) : Geom :=
  match cropType with
  | none => ⟨w, h, 0, 0⟩
  | some ct =>
    if ct = "instagram" then
      let size := min w h
      ⟨size, size, (w - size).fdiv 2, (h - size).fdiv 2⟩
    else if pyStartsWith ct "hd_" then
      if w * 1080 > h * 1920 then
        let newW := (h * 1920).fdiv 1080
        ⟨newW, h, (w - newW).fdiv 2,
          if ct = "hd_keep_top" then 0
          else if ct = "hd_keep_bottom" then h - 1080
          else (h - 1080).fdiv 2⟩
      else
        let newH := (w * 1080).fdiv 1920
        ⟨w, newH, 0,
          if ct = "hd_keep_top" then 0
          else if ct = "hd_keep_bottom" then h - newH
          else (h - newH).fdiv 2⟩
    else if pyStartsWith ct "uhd_" then
      if w * 2160 > h * 3840 then
        let newW := (h * 3840).fdiv 2160
        ⟨newW, h, (w - newW).fdiv 2,
          if ct = "uhd_keep_top" then 0
          else if ct = "hd_keep_bottom" then h - 2160
          else (h - 2160).fdiv 2⟩
      else
        let newH := (w * 2160).fdiv 3840
        ⟨w, newH, 0,
          if ct = "uhd_keep_top" then 0
          else if ct = "hd_keep_bottom" then h - newH
          else (h - newH).fdiv 2⟩
    else ⟨w, h, 0, 0⟩

/-! ### Scale-then-crop geometry of the `__init__.py` duplicate
(src/sisr/__init__.py lines 243-302). -/

/-- For `hd*` / `uhd*` crop modes of `__init__.create_video_with_overlay`:
the `(resize_width, resize_height, crop_y_offset)` fed into the
`scale=` and `crop=` filters (source lines 252-302).  Returns `none` for
other crop modes. -/
def initHdUhdCrop (ct : String) (w h : Int) : Option (Int × Int × Int) :=
  if pyStartsWith ct "hd" then
    if w * 1080 > h * 1920 then
      let rH : Int := 1080
      let rW := (w * 1080).fdiv h
      let y := if ct = "hd_keep_top" then 0
               else if ct = "hd_keep_bottom" then rH - 1080
               else (rH - 1080).fdiv 2
      some (rW, rH, y)
    else
      let rW : Int := 1920
      let rH := (1920 * h).fdiv w
      let y := if ct = "hd_keep_top" then 0
               else if ct = "hd_keep_bottom" then rH - 1080
               else (rH - 1080).fdiv 2
      some (rW, rH, y)
  else if pyStartsWith ct "uhd" then
    if w * 2160 > h * 3840 then
      let rH : Int := 2160
      let rW := (w * 2160).fdiv h
      let y := if ct = "uhd_keep_top" then 0
               else if ct = "uhd_keep_bottom" then rH - 2160
               else (rH - 2160).fdiv 2
      some (rW, rH, y)
    else
      let rW : Int := 3840
      let rH := (3840 * h).fdiv w
      let y := if ct = "uhd_keep_top" then 0
               else if ct = "uhd_keep_bottom" then rH - 2160
               else (rH - 2160).fdiv 2
      some (rW, rH, y)
  else none

/-! ### Arguments, environment, effects and errors -/

/-- Arguments of `create_video_with_overlay` (both versions share this
shape): the `(image_path, date_string)` pairs, the requested output file,
`fps`, and the three option strings.  Python `None` is `Option.none`;
`fps` is modelled as an integer (the program is only exercised with
integral frame rates and `str(fps)` of an integer matches). -/
structure CoreArgs where
  frames : List (String × Option String)
  outputFile : String
  fps : Int
  cropType : Option String
  overlayType : Option String
  quality : String
  deriving Repr, DecidableEq

/-- Per-call environment: the first image's decoded dimensions, the fresh
directory `tempfile.mkdtemp()` hands this call, the resolved system font,
and whether the encoder subprocess exits with status 0. -/
structure CoreEnv where
  srcW : Int
  srcH : Int
  tempDir : String
  fontPath : String
  encoderOk : Bool
  deriving Repr, DecidableEq

/-- Filesystem / process side effects of one render call, in order. -/
inductive Eff where
  | makeDirs (p : String)
  | openImage (p : String)
  | mkdtemp (p : String)
  | writeFile (p : String)
  | registerAtexit
  | runProc
  | removeTree (p : String)
  deriving Repr, DecidableEq

/-- Python exceptions the render operations raise. -/
inductive Err where
  | valueError (msg : String)
  | indexError
  | runtimeError (msg : String)
  | calledProcessError
  deriving Repr, DecidableEq

/-- True exactly for a raised `ValueError` (the configuration-error class
both implementations use). -/
def isValueError : Except Err String → Bool
  | Except.error (Err.valueError _) => true
  | _ => false

/-! ### Output filename (src/sisr/core.py lines 492-513) -/

/-- Extension override of core.py lines 497-500: `gif` forces `.gif`,
ProRes variants force `.mov`, everything else keeps the caller's
extension. -/
def extForQuality (q : String) (origExt : String) : String :=
  if q = "gif" then ".gif"
  else if q = "prores" ∨ q = "proreshq" then ".mov"
  else origExt

/-- Option-token list of core.py lines 502-509, in source order:
crop token, then overlay token, then quality token when not default. -/
def optionTokens (crop overlay : Option String) (q : String) : List String :=
  (match crop with | some c => [c] | none => []) ++
  (match overlay with | some o => [o] | none => []) ++
  (if q ≠ "default" then [q] else [])

/-- Final output filename of core.py lines 492-513: when any option token
is present, `f"{base_name}_{'_'.join(options)}{ext}"`; otherwise the
caller's `output_file` unchanged. -/
def coreOutputFileName (outputFile : String) (crop overlay : Option String) (q : String) : String :=
  let stem := pySplitextStem outputFile
  let ext := extForQuality q (pySplitextExt outputFile)
  let opts := optionTokens crop overlay q
  if opts = [] then outputFile
  else stem ++ "_" ++ pyJoinList "_" opts ++ ext

/-- Output filename from the argument record. -/
def coreOutputName (a : CoreArgs) : String :=
  coreOutputFileName a.outputFile a.cropType a.overlayType a.quality

/-! ### Input pattern derivation (src/sisr/core.py lines 519-530) -/

/-- Pattern derivation of core.py lines 521-528: split the first frame's
basename at underscores; piece 0 is the base, piece 1 truncated at its
first dot gives the digit count; `none` models the `IndexError` Python
raises when there is no second piece (no underscore in the filename). -/
def corePattern (firstPath : String) : Option String :=
  let fname := pyBasename firstPath
  match pySplit '_' fname with
  | [_] => none
  | base :: second :: _ =>
    let seq := (pySplit '.' second).headD ""
    some (base ++ "_%0" ++ toString seq.length ++ "d" ++ pySplitextExt fname)
  | [] => none

/-- `-i` argument of core.py lines 519-530: the pattern joined onto the
first frame's directory. -/
def coreInputPath (a : CoreArgs) : String :=
  let first := (a.frames.head?.map Prod.fst).getD ""
  pyJoin (pyDirname first) ((corePattern first).getD "")

/-! ### Overlay materializer (src/sisr/core.py lines 544-693) -/

/-- `len(str(num_frames - 1)) if num_frames > 0 else 1`
(core.py line 562). -/
def numDigitsFor (n : Nat) : Nat :=
  if n = 0 then 1 else (toString (n - 1)).length

/-- Path of the i-th per-frame date text file
(core.py lines 566-572): `f"date_{i:0{num_digits}d}.txt"` inside the temp
directory. -/
def dateTextfilePath (tempDir : String) (k i : Nat) : String :=
  tempDir ++ "/date_" ++ padZeros k (toString i) ++ ".txt"

/-- Font, size, padding and margins shared by every drawtext stage of one
render (core.py lines 547-556 and 594-595); `numDigits` is the zero-pad
width of the date-file names. -/
structure DateCtx where
  tempDir : String
  font : String
  fontSize : Int
  boxPad : Int
  xMargin : Int
  yMargin : Int
  numDigits : Nat
  deriving Repr, DecidableEq

/-- The drawtext filter string of core.py lines 585-598, character for
character (the apostrophes of the source are the escaped `\x27`). -/
def dateDrawtextFilter (cur textfile font : String) (fontSize boxPad xMargin yMargin : Int)
    (i : Nat) (outLabel : String) : String :=
  cur ++ "drawtext=textfile=\x27" ++ textfile ++ "\x27" ++
    ":fontfile=\x27" ++ font ++ "\x27" ++
    ":fontsize=" ++ toString fontSize ++
    ":fontcolor=white" ++
    ":box=1" ++
    ":boxcolor=black@0.5" ++
    ":boxborderw=" ++ toString boxPad ++
    ":x=(w-text_w-" ++ toString xMargin ++ ")" ++
    ":y=(h-text_h-" ++ toString yMargin ++ ")" ++
    ":enable=\x27eq(n," ++ toString i ++ ")\x27" ++
    outLabel

/-- The drawtext filter string of the frame-number branch
(core.py lines 649-662). -/
def frameDrawtextFilter (cur textfile font : String) (fontSize boxPad yMargin : Int)
    (i : Nat) (outLabel : String) : String :=
  cur ++ "drawtext=textfile=\x27" ++ textfile ++ "\x27" ++
    ":fontfile=\x27" ++ font ++ "\x27" ++
    ":fontsize=" ++ toString fontSize ++
    ":fontcolor=white" ++
    ":box=1:boxcolor=black@0.5:boxborderw=" ++ toString boxPad ++
    ":x=(w-text_w)/2" ++
    ":y=" ++ toString yMargin ++
    ":enable=\x27eq(n," ++ toString i ++ ")\x27" ++
    ":fix_bounds=true" ++
    outLabel

/-- One drawtext stage of the conditional per-frame chain: the stream
label it consumes, the frame index of its `enable=eq(n,i)` condition, the
stream label it produces, and its serialized filter text. -/
structure DrawStage where
  inputLabel : String
  enableIndex : Nat
  outputLabel : String
  filterText : String
  deriving Repr, DecidableEq

/-- Output stream label of the i-th date stage (core.py line 583):
`f"[v{i}]"` while more stages follow, `"[v_out]"` for the last stage. -/
def dateStageOut (numFrames i : Nat) : String :=
  if i + 1 < numFrames then "[v" ++ toString i ++ "]" else "[v_out]"

/-- The date-overlay loop of core.py lines 581-600: starting at frame `i`
with the cursor stream `cur`, build the remaining `k` stages, threading
each stage's output label into the next stage's input. -/
def dateStagesGo (ctx : DateCtx) (numFrames : Nat) : Nat → String → Nat → List DrawStage
  | _, _, 0 => []
  | i, cur, k + 1 =>
    let out := dateStageOut numFrames i
    { inputLabel := cur
      enableIndex := i
      outputLabel := out
      filterText := dateDrawtextFilter cur (dateTextfilePath ctx.tempDir ctx.numDigits i)
        ctx.font ctx.fontSize ctx.boxPad ctx.xMargin ctx.yMargin i out }
      :: dateStagesGo ctx numFrames (i + 1) out k

/-- All drawtext stages of a date-overlay render of `numFrames` frames;
the chain starts at `[v_cropped]` when a crop stage precedes it, else at
the raw input `[0:v]` (core.py lines 575-578). -/
def coreDateStages (ctx : DateCtx) (numFrames : Nat) (cropActive : Bool) : List DrawStage :=
  dateStagesGo ctx numFrames 0 (if cropActive then "[v_cropped]" else "[0:v]") numFrames

/-- The frame-number loop of core.py lines 645-664; labels are
`f"[v{i}_frame]"` with the same `[v_out]` terminal. -/
def frameStagesGo (ctx : DateCtx) (numFrames : Nat) : Nat → String → Nat → List DrawStage
  | _, _, 0 => []
  | i, cur, k + 1 =>
    let out := if i + 1 < numFrames then "[v" ++ toString i ++ "_frame]" else "[v_out]"
    { inputLabel := cur
      enableIndex := i
      outputLabel := out
      filterText := frameDrawtextFilter cur (ctx.tempDir ++ "/framenum_" ++ toString i ++ ".txt")
        ctx.font ctx.fontSize ctx.boxPad ctx.yMargin i out }
      :: frameStagesGo ctx numFrames (i + 1) out k

/-- All frame-number stages (core.py lines 645-664). -/
def coreFrameStages (ctx : DateCtx) (numFrames : Nat) (cropActive : Bool) : List DrawStage :=
  frameStagesGo ctx numFrames 0 (if cropActive then "[v_cropped]" else "[0:v]") numFrames

/-! ### Filter graph and command assembly (src/sisr/core.py lines 515-722) -/

/-- Crop stage of core.py lines 577 and 641:
`f"[0:v]crop={width}:{height}:{x}:{y}[v_cropped]"`. -/
def coreCropFilter (g : Geom) : String :=
  "[0:v]crop=" ++ toString g.w ++ ":" ++ toString g.h ++ ":" ++
    toString g.x ++ ":" ++ toString g.y ++ "[v_cropped]"

/-- Crop-only filter of core.py line 697 (no overlay): the crop stage is
wired directly to `[v_out]`. -/
def coreCropOnlyFilter (g : Geom) : String :=
  "[0:v]crop=" ++ toString g.w ++ ":" ++ toString g.h ++ ":" ++
    toString g.x ++ ":" ++ toString g.y ++ "[v_out]"

/-- Overlay drawing context of core.py lines 547-562:
`font_size = int(min(width, height) * 0.05)`,
`box_padding = int(font_size * 0.25)`, margins
`int(width * 0.05)` / `int(height * 0.05)` (all exact floor divisions for
this program's ranges), the resolved font, the fresh temp directory, and
the zero-pad width of the date-file names. -/
def mkOverlayCtx (env : CoreEnv) (g : Geom) (numFrames : Nat) : DateCtx :=
  let fs := (min g.w g.h * 5).fdiv 100
  { tempDir := env.tempDir
    font := env.fontPath
    fontSize := fs
    boxPad := fs.fdiv 4
    xMargin := (g.w * 5).fdiv 100
    yMargin := (g.h * 5).fdiv 100
    numDigits := numDigitsFor numFrames }

/-- The `-filter_complex` text of a date-overlay render
(core.py lines 574-611): optional crop stage, then the drawtext chain,
joined with semicolons. -/
def coreDateFilterComplex (a : CoreArgs) (env : CoreEnv) : String :=
  let g := coreGeometry a.cropType env.srcW env.srcH
  let n := a.frames.length
  let ctx := mkOverlayCtx env g n
  let parts :=
    (if a.cropType.isSome then [coreCropFilter g] else []) ++
    (coreDateStages ctx n a.cropType.isSome).map (fun s => s.filterText)
  pyJoinList ";" parts

/-- The `-filter_complex` text of a frame-number render
(core.py lines 638-684). -/
def coreFrameFilterComplex (a : CoreArgs) (env : CoreEnv) : String :=
  let g := coreGeometry a.cropType env.srcW env.srcH
  let n := a.frames.length
  let ctx := mkOverlayCtx env g n
  let parts :=
    (if a.cropType.isSome then [coreCropFilter g] else []) ++
    (coreFrameStages ctx n a.cropType.isSome).map (fun s => s.filterText)
  pyJoinList ";" parts

/-- Codec flags of core.py lines 702-719: ProRes variants get `prores_ks`
with profile 3 (HQ) or 2, GIF gets nothing, everything else gets the
libx264 defaults. -/
def coreQualityArgs (q : String) : List String :=
  if q = "prores" ∨ q = "proreshq" then
    ["-c:v", "prores_ks",
     "-profile:v", if q = "proreshq" then "3" else "2",
     "-vendor", "apl0",
     "-pix_fmt", "yuv422p10le"]
  else if q ≠ "gif" then
    ["-c:v", "libx264", "-preset", "slow", "-crf", "18", "-pix_fmt", "yuv420p"]
  else []

/-- The full encoder argument list assembled by
`core.create_video_with_overlay` (lines 515-722) for a non-empty frame
list whose pattern derivation succeeded.  The dead `num_frames == 0`
fallbacks at lines 602-609 and 666-681 are unreachable (line 420 raises on
an empty list first) and are not modelled. -/
def coreCmd (a : CoreArgs) (env : CoreEnv) : List String :=
  let filterArgs : List String :=
    match a.overlayType with
    | some "date" => ["-filter_complex", coreDateFilterComplex a env, "-map", "[v_out]"]
    | some "frame" => ["-filter_complex", coreFrameFilterComplex a env, "-map", "[v_out]"]
    | none =>
      match a.cropType with
      | some _ =>
        ["-filter_complex", coreCropOnlyFilter (coreGeometry a.cropType env.srcW env.srcH),
         "-map", "[v_out]"]
      | none => []
    | some _ => []
  ["ffmpeg", "-y", "-framerate", toString a.fps, "-i", coreInputPath a]
    ++ filterArgs ++ coreQualityArgs a.quality ++ [coreOutputName a]

/-! ### Effect-trace semantics of `core.create_video_with_overlay`
(src/sisr/core.py lines 400-741) -/

/-- One call of `core.create_video_with_overlay`: the ordered effect trace
and the result.  Source order: fps check (409), empty check (412-420),
`os.makedirs` (423), `Image.open` (427), geometry and naming (pure),
pattern split (519-530, may raise `IndexError`), overlay temp dir and text
files plus `atexit` registration (558-693), `subprocess.run` (732), which
re-raises `CalledProcessError` on a non-zero exit — with no removal of the
temp directory on any path (cleanup is only registered with `atexit`). -/
def coreRender (a : CoreArgs) (env : CoreEnv) : List Eff × Except Err String :=
  if a.fps ≤ 0 then
    ([], Except.error (Err.valueError ("FPS must be a positive number, but got " ++ toString a.fps)))
  else
    match a.frames with
    | [] =>
      ([], Except.error (Err.valueError "Image sequence list (image_date_files) cannot be empty."))
    | first :: _ =>
      let pre := [Eff.makeDirs (pyDirname a.outputFile), Eff.openImage first.1]
      match corePattern first.1 with
      | none => (pre, Except.error Err.indexError)
      | some _ =>
        let n := a.frames.length
        let overlayEffs : List Eff :=
          match a.overlayType with
          | some "date" =>
            Eff.mkdtemp env.tempDir ::
              ((List.range n).map
                (fun i => Eff.writeFile (dateTextfilePath env.tempDir (numDigitsFor n) i))
                ++ [Eff.registerAtexit])
          | some "frame" =>
            Eff.mkdtemp env.tempDir ::
              ((List.range n).map
                (fun i => Eff.writeFile (env.tempDir ++ "/framenum_" ++ toString i ++ ".txt"))
                ++ [Eff.registerAtexit])
          | _ => []
        let effs := pre ++ overlayEffs ++ [Eff.runProc]
        if env.encoderOk then (effs, Except.ok (coreOutputName a))
        else (effs, Except.error Err.calledProcessError)

/-! ### The `__init__.py` duplicate
(src/sisr/__init__.py lines 147-404) -/

/-- `valid_crop_types` of __init__.py lines 198-202. -/
def initValidCrops : List (Option String) :=
  [none, some "instagram",
   some "hd_center", some "hd_keep_top", some "hd_keep_bottom",
   some "uhd_center", some "uhd_keep_top", some "uhd_keep_bottom"]

/-- `valid_overlay_types` of __init__.py line 207. -/
def initValidOverlays : List (Option String) :=
  [none, some "date", some "frame"]

/-- `valid_qualities` of __init__.py line 212. -/
def validQualities : List String :=
  ["default", "prores", "proreshq", "gif"]

/-- One call of `__init__.create_video_with_overlay`: validation of fps,
crop, overlay, quality (lines 193-214, each raising `ValueError`), then
`os.makedirs` (217), `tempfile.mkdtemp` (220), the concat list write
(224-232), `Image.open(image_date_files[0][0])` (235) — an `IndexError`
when the list is empty — the encoder run (384), a `RuntimeError` on a
non-zero exit (399), and the `finally: shutil.rmtree(temp_dir)`
(402-404) on every path that reaches the `try` block. -/
def initRender (a : CoreArgs) (env : CoreEnv) : List Eff × Except Err String :=
  if a.fps ≤ 0 then
    ([], Except.error (Err.valueError "FPS must be a positive number"))
  else if a.cropType ∉ initValidCrops then
    ([], Except.error (Err.valueError "Invalid crop_type"))
  else if a.overlayType ∉ initValidOverlays then
    ([], Except.error (Err.valueError "Invalid overlay_type"))
  else if pyLower a.quality ∉ validQualities then
    ([], Except.error (Err.valueError "Invalid quality"))
  else
    let pre := [Eff.makeDirs (pyDirname a.outputFile), Eff.mkdtemp env.tempDir,
                Eff.writeFile (env.tempDir ++ "/image_list.txt")]
    match a.frames with
    | [] => (pre ++ [Eff.removeTree env.tempDir], Except.error Err.indexError)
    | first :: _ =>
      let effs := pre ++ [Eff.openImage first.1, Eff.runProc]
      if env.encoderOk then
        (effs ++ [Eff.removeTree env.tempDir], Except.ok a.outputFile)
      else
        (effs ++ [Eff.removeTree env.tempDir], Except.error (Err.runtimeError "ffmpeg command failed"))

/-! ### Trace predicates -/

/-- A linear chain: each stage consumes exactly the label the previous
stage produced, starting from `start`. -/
def chainedB (start : String) : List DrawStage → Bool
  | [] => true
  | s :: rest => if s.inputLabel = start then chainedB s.outputLabel rest else false

/-- Every temporary directory the trace creates is also removed by the
trace. -/
def cleansTemp (tr : List Eff) : Bool :=
  tr.all fun e =>
    match e with
    | Eff.mkdtemp p => tr.any fun e2 => decide (e2 = Eff.removeTree p)
    | _ => true

/-! ### Helper lemmas -/

/-- Splitting at a separator that does not occur returns the whole list as
the single piece. -/
theorem pySplitChar_of_not_mem (sep : Char) (l : List Char) (h : sep ∉ l) :
    pySplitChar sep l = [l] := by
  induction l with
  | nil => rfl
  | cons c rest ih =>
    have hc : ¬ c = sep := by
      intro e
      exact h (e ▸ List.mem_cons_self c rest)
    have hr : sep ∉ rest := fun m => h (List.mem_cons_of_mem _ m)
    simp only [pySplitChar, ih hr]
    simp [hc]

/-- String version of `pySplitChar_of_not_mem`. -/
theorem pySplit_no_sep (sep : Char) (s : String) (h : sep ∉ s.toList) :
    pySplit sep s = [String.mk s.toList] := by
  unfold pySplit
  rw [pySplitChar_of_not_mem sep _ h]
  rfl

/-- The date-stage loop produces one stage per remaining iteration, whose
enable indices are the consecutive frame indices starting at `i`. -/
theorem dateStagesGo_map_enable (ctx : DateCtx) (nf : Nat) :
    ∀ (k i : Nat) (cur : String),
      (dateStagesGo ctx nf i cur k).map (fun s => s.enableIndex) = List.range' i k := by
  intro k
  induction k with
  | zero => intro i cur; rfl
  | succ k ih =>
    intro i cur
    simp only [dateStagesGo, List.map_cons, List.range'_succ, ih]

/-- The date-stage loop threads stream labels: each stage consumes exactly
the label the previous stage produced. -/
theorem dateStagesGo_chained (ctx : DateCtx) (nf : Nat) :
    ∀ (k i : Nat) (cur : String), chainedB cur (dateStagesGo ctx nf i cur k) = true := by
  intro k
  induction k with
  | zero => intro i cur; rfl
  | succ k ih =>
    intro i cur
    simp only [dateStagesGo, chainedB, if_true]
    exact ih (i + 1) (dateStageOut nf i)

/-- When the loop runs to the frame count, the last stage's output label
is the terminal `[v_out]`. -/
theorem dateStagesGo_last (ctx : DateCtx) (nf : Nat) :
    ∀ (k i : Nat) (cur : String), k ≠ 0 → i + k = nf →
      ((dateStagesGo ctx nf i cur k).map (fun s => s.outputLabel)).getLast? = some "[v_out]" := by
  intro k
  induction k with
  | zero => intro i cur h; exact absurd rfl h
  | succ k ih =>
    intro i cur _ hnf
    cases k with
    | zero =>
      have hlt : ¬ (i + 1 < nf) := by omega
      simp [dateStagesGo, dateStageOut, hlt]
    | succ m =>
      have h1 : (i + 1) + (m + 1) = nf := by omega
      have tail := ih (i + 1) (dateStageOut nf i) (Nat.succ_ne_zero m) h1
      simp only [dateStagesGo, List.map_cons] at tail ⊢
      rw [List.getLast?_cons_cons]
      exact tail

/-! ### Claim theorems -/

/-- Concrete overlay context used by the C1 witness: a 1920 by 1080 source
with no crop, three frames. -/
def ctx0 : DateCtx :=
  mkOverlayCtx ⟨1920, 1080, "/tmp/t", "/F.ttf", true⟩ (coreGeometry none 1920 1080) 3

/-- C1: for every non-empty list of N frames rendered with
`overlay_type="date"`, the chain built by `core.create_video_with_overlay`
(lines 574-600) has exactly N drawtext stages, the i-th gated on
`enable=eq(n,i)` for i = 0..N-1 in strictly increasing order, each stage
consuming exactly the label the immediately preceding stage produced
(starting from `[v_cropped]` when a crop stage precedes the chain, else
from the raw `[0:v]`), and the last stage producing the terminal label
`[v_out]`. -/
theorem overlay_chain_linear (ctx : DateCtx) (numFrames : Nat) (cropActive : Bool)
    (h : numFrames ≠ 0) :
    (coreDateStages ctx numFrames cropActive).length = numFrames
    ∧ (coreDateStages ctx numFrames cropActive).map (fun s => s.enableIndex)
        = List.range numFrames
    ∧ chainedB (if cropActive then "[v_cropped]" else "[0:v]")
        (coreDateStages ctx numFrames cropActive) = true
    ∧ ((coreDateStages ctx numFrames cropActive).map (fun s => s.outputLabel)).getLast?
        = some "[v_out]" := by
  refine ⟨?_, ?_, ?_, ?_⟩
  · have hm := dateStagesGo_map_enable ctx numFrames numFrames 0
      (if cropActive then "[v_cropped]" else "[0:v]")
    have := congrArg List.length hm
    simpa [coreDateStages] using this
  · rw [coreDateStages, dateStagesGo_map_enable, List.range_eq_range']
  · exact dateStagesGo_chained ctx numFrames numFrames 0 _
  · exact dateStagesGo_last ctx numFrames numFrames 0 _ h (Nat.zero_add numFrames)

/-- Witness for C1 at three frames without a crop stage. -/
theorem overlay_chain_linear_witness :
    (coreDateStages ctx0 3 false).length = 3
    ∧ (coreDateStages ctx0 3 false).map (fun s => s.enableIndex) = List.range 3
    ∧ chainedB (if false then "[v_cropped]" else "[0:v]") (coreDateStages ctx0 3 false) = true
    ∧ ((coreDateStages ctx0 3 false).map (fun s => s.outputLabel)).getLast?
        = some "[v_out]" :=
  overlay_chain_linear ctx0 3 false (by decide)

/-- C3: evaluation at the failing input.  For the taller-than-16:9 source
3000 by 4000, `core.create_video_with_overlay` with
`crop_type="uhd_keep_bottom"` produces the center offset
`(4000 - 1687) // 2 = 1156` (because core.py line 486 compares against the
string "hd_keep_bottom" inside the `uhd_` branch), while the same source
with `crop_type="hd_keep_bottom"` does produce the keep-bottom offset
`4000 - 1687 = 2313`, and the `__init__.py` implementation computes the
claimed `scaledHeight - targetHeight = 5120 - 2160 = 2960` for
`uhd_keep_bottom`. -/
theorem uhd_keep_bottom_bug :
    coreGeometry (some "uhd_keep_bottom") 3000 4000 = ⟨3000, 1687, 0, 1156⟩
    ∧ coreGeometry (some "hd_keep_bottom") 3000 4000 = ⟨3000, 1687, 0, 2313⟩
    ∧ (coreGeometry (some "uhd_keep_bottom") 3000 4000).y
        ≠ 4000 - (coreGeometry (some "uhd_keep_bottom") 3000 4000).h
    ∧ initHdUhdCrop "uhd_keep_bottom" 3000 4000 = some (3840, 5120, 2960)
    ∧ (2960 : Int) = 5120 - 2160 := by
  decide

/-- C4: evaluation at the failing inputs.  The geometry of
`core.create_video_with_overlay` performs no even-rounding: the instagram
crop of a 101 by 101 source yields the odd output 101 by 101, and the
`hd_keep_bottom` crop of a 200 by 100 source yields the negative vertical
offset -980 (the wide branch subtracts the 1080 target height from a
100-pixel source). -/
theorem geometry_not_even_bug :
    coreGeometry (some "instagram") 101 101 = ⟨101, 101, 0, 0⟩
    ∧ (coreGeometry (some "instagram") 101 101).w % 2 = 1
    ∧ (coreGeometry (some "instagram") 101 101).h % 2 = 1
    ∧ coreGeometry (some "hd_keep_bottom") 200 100 = ⟨177, 100, 11, -980⟩
    ∧ (coreGeometry (some "hd_keep_bottom") 200 100).y < 0 := by
  decide

/-- C5: the output filename of `core.create_video_with_overlay`
(lines 492-513) is the base name followed by the crop token, the overlay
token and the quality token, in that fixed order, with the extension
dictated by the quality. -/
theorem output_name_suffix_order (f c o q : String) (hq : q ≠ "default") :
    coreOutputFileName f (some c) (some o) q
      = pySplitextStem f ++ "_" ++ (c ++ "_" ++ (o ++ "_" ++ q))
        ++ extForQuality q (pySplitextExt f) := by
  unfold coreOutputFileName optionTokens
  simp [hq, pyJoinList]

/-- Witness for C5: base "shoot1", crop `hd_center`, overlay `date`,
quality `prores` yields `shoot1_hd_center_date_prores.mov`. -/
theorem output_name_suffix_order_witness :
    coreOutputFileName "shoot1.mp4" (some "hd_center") (some "date") "prores"
      = "shoot1_hd_center_date_prores.mov" :=
  (output_name_suffix_order "shoot1.mp4" "hd_center" "date" "prores" (by decide)).trans
    (by decide)

/-- Parameter names of `core.create_video_with_overlay`
(src/sisr/core.py lines 400-407). -/
def coreParamNames : List String :=
  ["image_date_files", "output_file", "fps", "crop_type", "overlay_type", "quality"]

/-- Keyword arguments `__main__.main` passes to
`create_video_with_overlay` (src/sisr/__main__.py lines 268-277). -/
def mainRenderCallKwargs : List String :=
  ["image_date_files", "output_file", "fps", "crop_type", "overlay_type", "quality",
   "max_width", "max_height"]

/-- Python keyword binding: a call raises `TypeError` at the first keyword
that is not a parameter of the callee. -/
def pyBindKwargs (params callKwargs : List String) : Except String Unit :=
  match callKwargs.find? (fun k => !(params.contains k)) with
  | some k => Except.error ("create_video_with_overlay() got an unexpected keyword argument " ++ k)
  | none => Except.ok ()

/-- C6: evaluation at the failing input.  `core.create_video_with_overlay`
has no `max_width` or `max_height` parameter, so the call in
`__main__.main` (which forwards `--max-width 1280`) raises `TypeError`
before any rendering; no scaled output is ever produced. -/
theorem max_width_kwarg_mismatch :
    pyBindKwargs coreParamNames mainRenderCallKwargs
      = Except.error "create_video_with_overlay() got an unexpected keyword argument max_width"
    ∧ coreParamNames.contains "max_width" = false
    ∧ coreParamNames.contains "max_height" = false := by
  exact ⟨rfl, rfl, rfl⟩

/-- C10: the pattern derivation of `core.create_video_with_overlay`
(lines 519-530) indexes the second underscore-separated piece of the first
frame's basename; when that basename contains no underscore, the call
raises `IndexError` after the fps and non-emptiness checks have passed
and before any overlay resource or subprocess, having already created the
output directory and opened the first image. -/
theorem no_underscore_pattern_error (first : String × Option String)
    (rest : List (String × Option String)) (out : String) (fps : Int)
    (crop ov : Option String) (q : String) (env : CoreEnv)
    (hfps : 0 < fps) (hu : '_' ∉ (pyBasename first.1).toList) :
    coreRender ⟨first :: rest, out, fps, crop, ov, q⟩ env
      = ([Eff.makeDirs (pyDirname out), Eff.openImage first.1],
         Except.error Err.indexError) := by
  have hp : corePattern first.1 = none := by
    simp only [corePattern, pySplit_no_sep '_' _ hu]
  simp only [coreRender, hp]
  rw [if_neg (Int.not_le.mpr hfps)]

/-- Witness for C10: a single frame named `photo.jpg` (no underscore). -/
theorem no_underscore_pattern_error_witness :
    coreRender ⟨[("imgs/photo.jpg", none)], "out/v.mp4", 30, none, none, "default"⟩
        ⟨1920, 1080, "/tmp/t", "/F.ttf", true⟩
      = ([Eff.makeDirs "out", Eff.openImage "imgs/photo.jpg"],
         Except.error Err.indexError) :=
  (no_underscore_pattern_error ("imgs/photo.jpg", none) [] "out/v.mp4" 30 none none "default"
    ⟨1920, 1080, "/tmp/t", "/F.ttf", true⟩ (by decide) (by decide)).trans rfl

/-- C7, part that holds: `core.create_video_with_overlay` raises the
empty-input `ValueError` (line 420) with an empty effect trace — before
any output directory, temporary directory, temporary file, or encoder
subprocess. -/
theorem empty_input_core_before_fs (a : CoreArgs) (env : CoreEnv)
    (hfps : 0 < a.fps) (he : a.frames = []) :
    coreRender a env
      = ([], Except.error
          (Err.valueError "Image sequence list (image_date_files) cannot be empty.")) := by
  unfold coreRender
  rw [if_neg (Int.not_le.mpr hfps), he]

/-- Witness for the empty-input behaviour of the core implementation. -/
theorem empty_input_core_before_fs_witness :
    coreRender ⟨[], "out7/v.mp4", 30, none, none, "default"⟩ ⟨0, 0, "/tmp/t7", "/F.ttf", true⟩
      = ([], Except.error
          (Err.valueError "Image sequence list (image_date_files) cannot be empty.")) :=
  empty_input_core_before_fs _ _ (by decide) rfl

/-- C7 counterexample: the `__init__.py` duplicate called with an empty
frame list first creates the output directory, a temporary directory and
the concat-list file, and then fails with `IndexError`
(from `image_date_files[0][0]` at line 235) — not with an empty-input
error before filesystem access. -/
theorem empty_input_init_touches_fs :
    initRender ⟨[], "renders/v.mp4", 30, none, none, "default"⟩
        ⟨0, 0, "renders/tmpc7", "/F.ttf", true⟩
      = ([Eff.makeDirs "renders", Eff.mkdtemp "renders/tmpc7",
          Eff.writeFile "renders/tmpc7/image_list.txt", Eff.removeTree "renders/tmpc7"],
         Except.error Err.indexError) := rfl

/-- Frames and options shared by the C2 theorems: one frame, date
overlay, defaults otherwise. -/
def c2Args : CoreArgs :=
  ⟨[("imgs/img_001.jpg", some "Thursday, May 01, 2025 10:00AM")],
   "out2/v.mp4", 30, none, some "date", "default"⟩

/-- C2 counterexample: with `overlay_type="date"` and identical frames and
options, two calls that receive different fresh temporary directories from
`tempfile.mkdtemp` (as repeated calls always do) build different encoder
argument lists — the `-filter_complex` text embeds the per-call
date-file paths. -/
theorem command_not_repetition_identical :
    coreCmd c2Args ⟨1920, 1080, "/tmp/r1", "/F.ttf", true⟩
      ≠ coreCmd c2Args ⟨1920, 1080, "/tmp/r2", "/F.ttf", true⟩ := by
  decide

/-- C2 amended: for fixed frames and options with `overlay_type="date"`,
the encoder argument list is a pure function of the inputs plus the
per-call temporary directory and resolved font, and those two environment
inputs influence only the `-filter_complex` value (list index 7): erasing
that element yields byte-identical argument lists for any two
environments. -/
theorem command_deterministic_modulo_tempdir (a : CoreArgs) (env1 env2 : CoreEnv)
    (h : a.overlayType = some "date") :
    (coreCmd a env1).eraseIdx 7 = (coreCmd a env2).eraseIdx 7 := by
  obtain ⟨fr, o, f, c, ov, q⟩ := a
  change ov = some "date" at h
  subst h
  rfl

/-- Witness for the C2 amended theorem at the concrete counterexample
environments. -/
theorem command_deterministic_modulo_tempdir_witness :
    (coreCmd c2Args ⟨1920, 1080, "/tmp/r1", "/F.ttf", true⟩).eraseIdx 7
      = (coreCmd c2Args ⟨1920, 1080, "/tmp/r2", "/F.ttf", true⟩).eraseIdx 7 :=
  command_deterministic_modulo_tempdir c2Args _ _ rfl

/-- Arguments of the C8 counterexample: one frame, date overlay. -/
def c8Args : CoreArgs :=
  ⟨[("imgs/img_001.jpg", some "Thursday, May 01, 2025 10:00AM")],
   "out8/v.mp4", 30, none, some "date", "default"⟩

/-- Environment of the C8 counterexample: the encoder exits non-zero. -/
def c8Env : CoreEnv := ⟨1920, 1080, "/tmp/t8", "/F.ttf", false⟩

/-- C8 counterexample: in `core.create_video_with_overlay`, after a
simulated encoder failure the overlay temporary directory and its date
file still exist — the trace creates them and never removes them (cleanup
is only registered with `atexit`, lines 616-621), and the
`CalledProcessError` propagates. -/
theorem core_overlay_temp_not_cleaned :
    coreRender c8Args c8Env
      = ([Eff.makeDirs "out8", Eff.openImage "imgs/img_001.jpg", Eff.mkdtemp "/tmp/t8",
          Eff.writeFile "/tmp/t8/date_0.txt", Eff.registerAtexit, Eff.runProc],
         Except.error Err.calledProcessError)
    ∧ cleansTemp (coreRender c8Args c8Env).1 = false := ⟨rfl, rfl⟩

/-- C8 amended: the `__init__.py` implementation does satisfy the
cleanup guarantee — on every exit path of `initRender` (validation
failure, empty input, encoder failure, success), every temporary
directory the call created is removed before the call returns
(`finally: shutil.rmtree(temp_dir)`, lines 402-404), and the concat list
lives inside that directory. -/
theorem init_cleanup_all_paths (a : CoreArgs) (env : CoreEnv) :
    cleansTemp (initRender a env).1 = true := by
  unfold initRender
  split
  · rfl
  split
  · rfl
  split
  · rfl
  split
  · rfl
  split
  · simp [cleansTemp]
  split
  · simp [cleansTemp]
  · simp [cleansTemp]

/-- C9 amended: the `__init__.py` implementation raises `ValueError`
before any filesystem or subprocess effect exactly when `fps <= 0` or the
crop type, overlay type, or lowercased quality is outside its fixed set —
an empty frame list is not part of this validation; the core
implementation raises `ValueError` with an empty effect trace exactly when
`fps <= 0` or the frame list is empty, and validates nothing else. -/
theorem validation_characterization (a : CoreArgs) (env : CoreEnv) :
    (((initRender a env).1 = [] ∧ isValueError (initRender a env).2 = true) ↔
      (a.fps ≤ 0 ∨ a.cropType ∉ initValidCrops ∨ a.overlayType ∉ initValidOverlays
        ∨ pyLower a.quality ∉ validQualities))
    ∧ (((coreRender a env).1 = [] ∧ isValueError (coreRender a env).2 = true) ↔
      (a.fps ≤ 0 ∨ a.frames = [])) := by
  constructor
  · by_cases h1 : a.fps ≤ 0
    · simp [initRender, h1, isValueError]
    · by_cases h2 : a.cropType ∈ initValidCrops
      · by_cases h3 : a.overlayType ∈ initValidOverlays
        · by_cases h4 : pyLower a.quality ∈ validQualities
          · cases hf : a.frames with
            | nil => simp [initRender, h1, h2, h3, h4, hf, isValueError]
            | cons p l =>
              by_cases h5 : env.encoderOk
              · simp [initRender, h1, h2, h3, h4, hf, h5, isValueError]
              · simp [initRender, h1, h2, h3, h4, hf, h5, isValueError]
          · simp [initRender, h1, h2, h3, h4, isValueError]
        · simp [initRender, h1, h2, h3, isValueError]
      · simp [initRender, h1, h2, isValueError]
  · by_cases h1 : a.fps ≤ 0
    · simp [coreRender, h1, isValueError]
    · cases hf : a.frames with
      | nil => simp [coreRender, h1, hf, isValueError]
      | cons p l =>
        cases hp : corePattern p.1 with
        | none => simp [coreRender, h1, hf, hp, isValueError]
        | some s =>
          by_cases h5 : env.encoderOk
          · simp [coreRender, h1, hf, hp, h5, isValueError]
          · simp [coreRender, h1, hf, hp, h5, isValueError]

/-- C9 counterexample: an empty frame list with otherwise valid options
passes the `__init__.py` validation (the failure is an `IndexError` after
directories are created, not a configuration error), and the core
implementation raises no error at all for the out-of-set quality
"nonsense" — the render runs the encoder and returns an output path. -/
theorem config_validation_gap :
    (initRender ⟨[], "out9/v.mp4", 24, none, none, "default"⟩
        ⟨0, 0, "out9/tmp9", "/F.ttf", true⟩).2
      = Except.error Err.indexError
    ∧ (coreRender ⟨[("imgs/img_001.jpg", none)], "out9/v.mp4", 24, none, none, "nonsense"⟩
        ⟨1920, 1080, "/tmp/t9", "/F.ttf", true⟩).2
      = Except.ok "out9/v_nonsense.mp4" := ⟨rfl, rfl⟩

/-- Output filename built by the CLI frontend `__init__.main`
(src/sisr/__init__.py lines 500-525): the quality token is appended
first, then the crop token, then the overlay token, and the extension is
chosen from the quality; the result is joined onto the output directory.
`__init__.create_video_with_overlay` itself performs no renaming — it
uses and returns the `output_file` it was given (line 401). -/
def initMainOutputName (outputDir inputDirName : String)
    (cropType overlay : Option String) (quality : String) : String :=
  let base := inputDirName
  let base := if quality = "prores" then base ++ "_prores"
              else if quality = "proreshq" then base ++ "_proreshq"
              else if quality = "gif" then base ++ "_gif"
              else base
  let base := match cropType with
              | some c => base ++ "_" ++ c
              | none => base
  let base := match overlay with
              | some o => base ++ "_" ++ o
              | none => base
  let ext := if quality = "prores" ∨ quality = "proreshq" then ".mov"
             else if quality = "gif" then ".gif"
             else ".mp4"
  pyJoin outputDir (base ++ ext)

/-- C5 counterexample: the claim does not hold for every render.  The
render driven by `__init__.main` suffixes the quality token before the
crop and overlay tokens: base "shoot1" with crop `hd_center`, overlay
`date`, quality `prores` yields `shoot1_prores_hd_center_date.mov`, not
the claimed `shoot1_hd_center_date_prores.mov`; and
`__init__.create_video_with_overlay` applies no renaming of its own — it
returns the caller's `output_file` unchanged, its extension not dictated
by the quality. -/
theorem init_main_name_order_diverges :
    initMainOutputName "out" "shoot1" (some "hd_center") (some "date") "prores"
      = "out/shoot1_prores_hd_center_date.mov"
    ∧ initMainOutputName "out" "shoot1" (some "hd_center") (some "date") "prores"
      ≠ "out/shoot1_hd_center_date_prores.mov"
    ∧ (initRender
        ⟨[("imgs/img_001.jpg", none)], "out5/shoot1.mp4", 30,
         some "hd_center", some "date", "prores"⟩
        ⟨3000, 2000, "out5/tmp5", "/F.ttf", true⟩).2
      = Except.ok "out5/shoot1.mp4" := by
  refine ⟨rfl, by decide, rfl⟩
